import Mathlib

/-!
# Verification of the WordPress Operations MCP server

Shallow embedding of `docker/mcp-wpops/server/app.py`: the tool dispatcher
(`WordPressOpsServer.call_tool`), the sixteen per-tool handlers
(`_list_sites` … `_get_dashboard_stats`) that build agent command lines, and
the agent process runner (`_execute_agent_command`).

JSON-like values are modelled by `Value`; a Python exception escaping a
handler is modelled by `Except.error` carrying `str(e)`; the child process
and the JSON decoder are abstract parameters (`world`, `decode`), since both
live outside this repository.
-/

namespace WpOps

/-- JSON-like values as handled by the server: Python
`str` / `int` / `bool` / `None` / `list` / `dict`. -/
inductive Value where
  | str (s : String)
  | int (n : Int)
  | bool (b : Bool)
  | null
  | list (elems : List Value)
  | obj (fields : List (String × Value))

/-- An argument bag is a Python dict with string keys (as delivered by the
MCP transport): an association list, first binding wins. -/
abbrev ArgBag := List (String × Value)

/-- Python type name of a value, as it appears in `TypeError` /
`AttributeError` messages. -/
def pyTypeName : Value → String
  | .str _ => "str"
  | .int _ => "int"
  | .bool _ => "bool"
  | .null => "NoneType"
  | .list _ => "list"
  | .obj _ => "dict"

mutual

/-- Python `repr` of a value (string escaping inside reprs is not modelled;
no claim depends on the repr of a nested structure). -/
def pyRepr : Value → String
  | .str s => "\x27" ++ s ++ "\x27"
  | .int n => toString n
  | .bool true => "True"
  | .bool false => "False"
  | .null => "None"
  | .list xs => "[" ++ pyReprList xs ++ "]"
  | .obj fs => "\x7b" ++ pyReprFields fs ++ "\x7d"

/-- Comma-separated reprs of list elements. -/
def pyReprList : List Value → String
  | [] => ""
  | [x] => pyRepr x
  | x :: xs => pyRepr x ++ ", " ++ pyReprList xs

/-- Comma-separated reprs of dict entries. -/
def pyReprFields : List (String × Value) → String
  | [] => ""
  | [kv] => "\x27" ++ kv.1 ++ "\x27: " ++ pyRepr kv.2
  | kv :: fs => "\x27" ++ kv.1 ++ "\x27: " ++ pyRepr kv.2 ++ ", " ++ pyReprFields fs

end

/-- Python `str(...)`, as used by the handlers on `site_id` / `limit`
values (`str(args[...])`). -/
def pyStr : Value → String
  | .str s => s
  | .int n => toString n
  | .bool true => "True"
  | .bool false => "False"
  | .null => "None"
  | .list xs => pyRepr (.list xs)
  | .obj fs => pyRepr (.obj fs)

/-- Python truthiness, as used by `if args[k]:` checks. -/
def truthy : Value → Bool
  | .str s => s ≠ ""
  | .int n => n ≠ 0
  | .bool b => b
  | .null => false
  | .list xs => ¬ xs.isEmpty
  | .obj fs => ¬ fs.isEmpty

/-- Python `v == s` where `s` is a string literal: only a `str` value can
compare equal to a string, every other type compares unequal. -/
def pyEqStr (v : Value) (s : String) : Bool :=
  match v with
  | .str t => t == s
  | _ => false

/-- Python iteration `for x in v`, as in the `scan_types` / `plugins` /
`themes` / `checks` loops: a list yields its elements, a string its
characters, a dict its keys; other types raise `TypeError`. -/
def pyIter : Value → Except String (List Value)
  | .list xs => .ok xs
  | .str s => .ok (s.toList.map (fun c => Value.str (String.singleton c)))
  | .obj fs => .ok (fs.map (fun kv => Value.str kv.1))
  | v => .error ("\x27" ++ pyTypeName v ++ "\x27 object is not iterable")

/-- Python `v.items()` on the nested `options` object: a dict yields its
entries, any other type raises `AttributeError`. -/
def pyItems : Value → Except String (List (String × Value))
  | .obj fs => .ok fs
  | v => .error ("\x27" ++ pyTypeName v ++ "\x27 object has no " ++
      "attribute \x27items\x27")

/-- The early-return payload shared by every site-scoped handler when the
argument bag holds neither `site_id` nor `site_path` (app.py lines 587 etc.). -/
def identifierRequired : Value :=
  Value.obj [("success", Value.bool false),
             ("error", Value.str "Either site_id or site_path is required")]

/-- The identifier prologue repeated at the top of every site-scoped
handler (app.py lines 582-587 etc.):
`if site_id in args` emit `[--id, str(site_id)]`, `elif site_path in args`
emit `[--path, site_path]`, else `none` (caller returns
`identifierRequired`). -/
def siteIdentifier (args : ArgBag) : Option (List Value) :=
  match List.lookup "site_id" args with
  | some v => some [Value.str "--id", Value.str (pyStr v)]
  | none =>
    match List.lookup "site_path" args with
    | some v => some [Value.str "--path", v]
    | none => none

/-- What a tool handler does: return a payload directly (the early
`return` branches), or invoke the agent CLI via `_execute_agent_command`
with a command name and the built flag tokens. A Python exception escaping
the handler is `Except.error` carrying `str(e)`. -/
inductive HandlerResult where
  | ret (payload : Value)
  | invoke (command : String) (cmdArgs : List Value)

/-- `_list_sites` (app.py 566-576). -/
def listSitesH (args : ArgBag) : Except String HandlerResult :=
  let statusArgs :=
    match List.lookup "status" args with
    | some v => if pyEqStr v "all" then [] else [Value.str "--status", v]
    | none => []
  let limitArgs :=
    match List.lookup "limit" args with
    | some v => [Value.str "--limit", Value.str (pyStr v)]
    | none => []
  .ok (.invoke "sites:list" (statusArgs ++ limitArgs))

/-- `_get_site_info` (app.py 578-589). -/
def getSiteInfoH (args : ArgBag) : Except String HandlerResult :=
  match siteIdentifier args with
  | none => .ok (.ret identifierRequired)
  | some idArgs => .ok (.invoke "sites:info" idArgs)

/-- `_lock_site` (app.py 591-605). -/
def lockSiteH (args : ArgBag) : Except String HandlerResult :=
  match siteIdentifier args with
  | none => .ok (.ret identifierRequired)
  | some idArgs =>
    let messageArgs :=
      match List.lookup "message" args with
      | some v => [Value.str "--message", v]
      | none => []
    .ok (.invoke "sites:lock" (idArgs ++ messageArgs))

/-- `_unlock_site` (app.py 607-618). -/
def unlockSiteH (args : ArgBag) : Except String HandlerResult :=
  match siteIdentifier args with
  | none => .ok (.ret identifierRequired)
  | some idArgs => .ok (.invoke "sites:unlock" idArgs)

/-- `_harden_site` (app.py 620-640): each boolean option emits
`--<kebab>` when true and `--no-<kebab>` when false; non-boolean option
values emit nothing. -/
def hardenSiteH (args : ArgBag) : Except String HandlerResult :=
  match siteIdentifier args with
  | none => .ok (.ret identifierRequired)
  | some idArgs =>
    match List.lookup "options" args with
    | none => .ok (.invoke "sites:harden" idArgs)
    | some options =>
      match pyItems options with
      | .error e => .error e
      | .ok items =>
        .ok (.invoke "sites:harden" (idArgs ++ items.flatMap (fun kv =>
          match kv.2 with
          | Value.bool true => [Value.str ("--" ++ kv.1.replace "_" "-")]
          | Value.bool false => [Value.str ("--no-" ++ kv.1.replace "_" "-")]
          | _ => [])))

/-- `_unharden_site` (app.py 642-653). -/
def unhardenSiteH (args : ArgBag) : Except String HandlerResult :=
  match siteIdentifier args with
  | none => .ok (.ret identifierRequired)
  | some idArgs => .ok (.invoke "sites:unharden" idArgs)

/-- `_fix_permissions` (app.py 655-675): boolean options emit a bare flag
when true and nothing when false; string options emit a flag/value pair. -/
def fixPermissionsH (args : ArgBag) : Except String HandlerResult :=
  match siteIdentifier args with
  | none => .ok (.ret identifierRequired)
  | some idArgs =>
    match List.lookup "options" args with
    | none => .ok (.invoke "sites:fix-permissions" idArgs)
    | some options =>
      match pyItems options with
      | .error e => .error e
      | .ok items =>
        .ok (.invoke "sites:fix-permissions" (idArgs ++ items.flatMap (fun kv =>
          match kv.2 with
          | Value.bool true => [Value.str ("--" ++ kv.1.replace "_" "-")]
          | Value.bool false => []
          | Value.str s => [Value.str ("--" ++ kv.1.replace "_" "-"), Value.str s]
          | _ => [])))

/-- `_scan_site` (app.py 677-692). -/
def scanSiteH (args : ArgBag) : Except String HandlerResult :=
  match siteIdentifier args with
  | none => .ok (.ret identifierRequired)
  | some idArgs =>
    match List.lookup "scan_types" args with
    | none => .ok (.invoke "sites:scan" idArgs)
    | some v =>
      match pyIter v with
      | .error e => .error e
      | .ok items =>
        .ok (.invoke "sites:scan" (idArgs ++ items.flatMap (fun t =>
          [Value.str "--scan", t])))

/-- `_backup_site` (app.py 694-711): `--compress` is emitted only when
`compression` is present and truthy. -/
def backupSiteH (args : ArgBag) : Except String HandlerResult :=
  match siteIdentifier args with
  | none => .ok (.ret identifierRequired)
  | some idArgs =>
    let typeArgs :=
      match List.lookup "backup_type" args with
      | some v => [Value.str "--type", v]
      | none => []
    let compressArgs :=
      match List.lookup "compression" args with
      | some v => if truthy v then [Value.str "--compress"] else []
      | none => []
    .ok (.invoke "sites:backup" (idArgs ++ typeArgs ++ compressArgs))

/-- `_restore_site` (app.py 713-729): `args[backup_id]` is accessed
unconditionally, so a bag without `backup_id` raises
`KeyError(backup_id)`, whose `str` is the quoted key. -/
def restoreSiteH (args : ArgBag) : Except String HandlerResult :=
  match siteIdentifier args with
  | none => .ok (.ret identifierRequired)
  | some idArgs =>
    match List.lookup "backup_id" args with
    | none => .error "\x27backup_id\x27"
    | some backupId =>
      let typeArgs :=
        match List.lookup "restore_type" args with
        | some v => [Value.str "--type", v]
        | none => []
      .ok (.invoke "sites:restore"
        (idArgs ++ [Value.str "--backup-id", backupId] ++ typeArgs))

/-- `_update_plugins` (app.py 731-749): one `--plugin <p>` pair per element
of a present, truthy `plugins` value, in order. -/
def updatePluginsH (args : ArgBag) : Except String HandlerResult :=
  match siteIdentifier args with
  | none => .ok (.ret identifierRequired)
  | some idArgs =>
    match (match List.lookup "plugins" args with
           | some v =>
             if truthy v then
               (pyIter v).map (fun (items : List Value) => items.flatMap (fun p =>
                 [Value.str "--plugin", p]))
             else .ok []
           | none => .ok []) with
    | .error e => .error e
    | .ok pluginArgs =>
      let dryArgs :=
        match List.lookup "dry_run" args with
        | some v => if truthy v then [Value.str "--dry-run"] else []
        | none => []
      .ok (.invoke "sites:update-plugins" (idArgs ++ pluginArgs ++ dryArgs))

/-- `_update_themes` (app.py 751-769). -/
def updateThemesH (args : ArgBag) : Except String HandlerResult :=
  match siteIdentifier args with
  | none => .ok (.ret identifierRequired)
  | some idArgs =>
    match (match List.lookup "themes" args with
           | some v =>
             if truthy v then
               (pyIter v).map (fun (items : List Value) => items.flatMap (fun t =>
                 [Value.str "--theme", t]))
             else .ok []
           | none => .ok []) with
    | .error e => .error e
    | .ok themeArgs =>
      let dryArgs :=
        match List.lookup "dry_run" args with
        | some v => if truthy v then [Value.str "--dry-run"] else []
        | none => []
      .ok (.invoke "sites:update-themes" (idArgs ++ themeArgs ++ dryArgs))

/-- `_update_core` (app.py 771-788). -/
def updateCoreH (args : ArgBag) : Except String HandlerResult :=
  match siteIdentifier args with
  | none => .ok (.ret identifierRequired)
  | some idArgs =>
    let versionArgs :=
      match List.lookup "version" args with
      | some v => if truthy v then [Value.str "--version", v] else []
      | none => []
    let dryArgs :=
      match List.lookup "dry_run" args with
      | some v => if truthy v then [Value.str "--dry-run"] else []
      | none => []
    .ok (.invoke "sites:update-core" (idArgs ++ versionArgs ++ dryArgs))

/-- `_validate_sites` (app.py 790-801): no identifier requirement;
`site_id` is optional. -/
def validateSitesH (args : ArgBag) : Except String HandlerResult :=
  let idArgs :=
    match List.lookup "site_id" args with
    | some v => [Value.str "--id", Value.str (pyStr v)]
    | none => []
  match List.lookup "checks" args with
  | none => .ok (.invoke "validate:sites" idArgs)
  | some v =>
    match pyIter v with
    | .error e => .error e
    | .ok items =>
      .ok (.invoke "validate:sites" (idArgs ++ items.flatMap (fun c =>
        [Value.str "--check", c])))

/-- `_get_jobs` (app.py 803-816). -/
def getJobsH (args : ArgBag) : Except String HandlerResult :=
  let statusArgs :=
    match List.lookup "status" args with
    | some v => if pyEqStr v "all" then [] else [Value.str "--status", v]
    | none => []
  let siteArgs :=
    match List.lookup "site_id" args with
    | some v => [Value.str "--site-id", Value.str (pyStr v)]
    | none => []
  let limitArgs :=
    match List.lookup "limit" args with
    | some v => [Value.str "--limit", Value.str (pyStr v)]
    | none => []
  .ok (.invoke "jobs:list" (statusArgs ++ siteArgs ++ limitArgs))

/-- `_get_dashboard_stats` (app.py 818-820): no flags at all. -/
def getDashboardStatsH (_args : ArgBag) : Except String HandlerResult :=
  .ok (.invoke "dashboard:stats" [])

/-- The `if tool_name == ... / elif ... / else raise ValueError` routing
chain of `call_tool` (app.py 477-510). -/
def routeTool (name : String) (args : ArgBag) : Except String HandlerResult :=
  if name = "list_sites" then listSitesH args
  else if name = "get_site_info" then getSiteInfoH args
  else if name = "lock_site" then lockSiteH args
  else if name = "unlock_site" then unlockSiteH args
  else if name = "harden_site" then hardenSiteH args
  else if name = "unharden_site" then unhardenSiteH args
  else if name = "fix_permissions" then fixPermissionsH args
  else if name = "scan_site" then scanSiteH args
  else if name = "backup_site" then backupSiteH args
  else if name = "restore_site" then restoreSiteH args
  else if name = "update_plugins" then updatePluginsH args
  else if name = "update_themes" then updateThemesH args
  else if name = "update_core" then updateCoreH args
  else if name = "validate_sites" then validateSitesH args
  else if name = "get_jobs" then getJobsH args
  else if name = "get_dashboard_stats" then getDashboardStatsH args
  else .error ("Unknown tool: " ++ name)

/-- Server configuration read once at startup (app.py 39-40):
`PHP_CLI` and `AGENT_PATH`. -/
structure Config where
  php_cli : String
  agent_path : String

/-- Outcome of attempting to start and wait for the child process:
either `create_subprocess_exec` raised, or the process completed with an
exit status and captured stdout/stderr. -/
inductive ProcResult where
  | startFailure (cause : String)
  | completed (returncode : Int) (stdout : String) (stderr : String)

/-- The spawn request handed to `asyncio.create_subprocess_exec`:
the argv token list and the working directory (`cwd=self.agent_path`). -/
structure SpawnRequest where
  cmd : List Value
  cwd : String

/-- The command line built by `_execute_agent_command` (app.py 531, 538):
`cmd = [self.php_cli, f"(agent_path)/cli.php", command] + args`, run with
`cwd = self.agent_path`. -/
def agentSpawnRequest (cfg : Config) (command : String) (args : List Value) :
    SpawnRequest :=
  { cmd := [Value.str cfg.php_cli, Value.str (cfg.agent_path ++ "/cli.php"),
            Value.str command] ++ args
    cwd := cfg.agent_path }

/-- `_execute_agent_command` (app.py 526-563). `decode` stands for
`json.loads` (library code outside this repository: `some` = parse
succeeded, `none` = `JSONDecodeError`); `world` stands for the operating
system running the spawned process. -/
def executeAgentCommand (cfg : Config) (decode : String → Option Value)
    (world : SpawnRequest → ProcResult) (command : String)
    (args : List Value) : Value :=
  match world (agentSpawnRequest cfg command args) with
  | .startFailure cause =>
    Value.obj [("success", Value.bool false),
               ("error", Value.str ("Failed to execute command: " ++ cause))]
  | .completed rc stdout stderr =>
    if rc = 0 then
      match decode stdout with
      | some payload => payload
      | none =>
        Value.obj [("success", Value.bool true),
                   ("output", Value.str stdout),
                   ("error", if stderr = "" then Value.null
                             else Value.str stderr)]
    else
      Value.obj [("success", Value.bool false),
                 ("error", Value.str (if stderr = "" then "Command failed"
                                      else stderr)),
                 ("exit_code", Value.int rc)]

/-- The transport-level result of `call_tool`: the payload that gets
serialized into the text content, and the `isError` flag (absent, hence
`false`, on the non-exception path). -/
structure CallToolResult where
  payload : Value
  isError : Bool

/-- `call_tool` (app.py 468-524): route to a handler inside a
`try/except Exception` block; a caught exception becomes the payload
`(success: false, error: str(e))` with `isError=True`; a normally returned
payload is passed through with `isError` left at its default `False`. -/
def callTool (cfg : Config) (decode : String → Option Value)
    (world : SpawnRequest → ProcResult) (name : String) (args : ArgBag) :
    CallToolResult :=
  match routeTool name args with
  | .ok (.ret p) => { payload := p, isError := false }
  | .ok (.invoke command cmdArgs) =>
    { payload := executeAgentCommand cfg decode world command cmdArgs
      isError := false }
  | .error e =>
    { payload := Value.obj [("success", Value.bool false),
                            ("error", Value.str e)]
      isError := true }

/-- Field access on an object payload. -/
def lookupField (v : Value) (key : String) : Option Value :=
  match v with
  | .obj fs => List.lookup key fs
  | _ => none

/-- The external agent command name each tool routes to (app.py handler
tail calls; spec section 6). -/
def agentCommand (name : String) : Option String :=
  if name = "list_sites" then some "sites:list"
  else if name = "get_site_info" then some "sites:info"
  else if name = "lock_site" then some "sites:lock"
  else if name = "unlock_site" then some "sites:unlock"
  else if name = "harden_site" then some "sites:harden"
  else if name = "unharden_site" then some "sites:unharden"
  else if name = "fix_permissions" then some "sites:fix-permissions"
  else if name = "scan_site" then some "sites:scan"
  else if name = "backup_site" then some "sites:backup"
  else if name = "restore_site" then some "sites:restore"
  else if name = "update_plugins" then some "sites:update-plugins"
  else if name = "update_themes" then some "sites:update-themes"
  else if name = "update_core" then some "sites:update-core"
  else if name = "validate_sites" then some "validate:sites"
  else if name = "get_jobs" then some "jobs:list"
  else if name = "get_dashboard_stats" then some "dashboard:stats"
  else none

/-- The twelve operations whose schema mandates the site identifier group
(the handlers that begin with the `siteIdentifier` prologue). -/
def identifierOps : List String :=
  ["get_site_info", "lock_site", "unlock_site", "harden_site",
   "unharden_site", "fix_permissions", "scan_site", "backup_site",
   "restore_site", "update_plugins", "update_themes", "update_core"]

/-- Remove every binding of `key` from a bag. -/
def removeKey (args : ArgBag) (key : String) : ArgBag :=
  args.filter (fun kv => kv.1 ≠ key)

end WpOps

namespace WpOps

theorem lookup_removeKey (args : ArgBag) (k key : String) (h : k ≠ key) :
    List.lookup k (removeKey args key) = List.lookup k args := by
  induction args with
  | nil => rfl
  | cons kv rest ih =>
    simp only [removeKey, List.filter_cons] at ih ⊢
    by_cases hk : kv.1 = key
    · have hne : (k == key) = false := beq_eq_false_iff_ne.mpr h
      simpa [hk, List.lookup, hne] using ih
    · cases hkk : (k == kv.1) with
      | true => simp [hk, List.lookup, hkk]
      | false => simpa [hk, List.lookup, hkk] using ih

theorem siteIdentifier_removeKey (args : ArgBag) (v : Value)
    (h : List.lookup "site_id" args = some v) :
    siteIdentifier (removeKey args "site_path") = siteIdentifier args := by
  unfold siteIdentifier
  rw [lookup_removeKey args "site_id" "site_path" (by decide), h]

theorem siteIdentifier_none (args : ArgBag)
    (h1 : List.lookup "site_id" args = none)
    (h2 : List.lookup "site_path" args = none) :
    siteIdentifier args = none := by
  unfold siteIdentifier
  rw [h1, h2]

theorem siteIdentifier_some (args : ArgBag) (idArgs : List Value)
    (h : siteIdentifier args = some idArgs) :
    (∃ v, List.lookup "site_id" args = some v ∧
        idArgs = [Value.str "--id", Value.str (pyStr v)]) ∨
    (List.lookup "site_id" args = none ∧
      ∃ v, List.lookup "site_path" args = some v ∧
        idArgs = [Value.str "--path", v]) := by
  unfold siteIdentifier at h
  cases h1 : List.lookup "site_id" args with
  | some v =>
    rw [h1] at h
    exact Or.inl ⟨v, rfl, (Option.some.injEq _ _ ▸ h).symm⟩
  | none =>
    rw [h1] at h
    cases h2 : List.lookup "site_path" args with
    | some v =>
      rw [h2] at h
      exact Or.inr ⟨rfl, v, rfl, (Option.some.injEq _ _ ▸ h).symm⟩
    | none => rw [h2] at h; exact absurd h (by simp)

end WpOps

namespace WpOps

theorem getSiteInfoH_inv (bag : ArgBag) (c : String) (cargs : List Value)
    (h : getSiteInfoH bag = .ok (.invoke c cargs)) :
    c = "sites:info" ∧
      ∃ idArgs, siteIdentifier bag = some idArgs ∧ idArgs <+: cargs := by
  cases hsi : siteIdentifier bag with
  | none => simp [getSiteInfoH, hsi] at h
  | some idArgs =>
    simp only [getSiteInfoH, hsi, Except.ok.injEq,
      HandlerResult.invoke.injEq] at h
    obtain ⟨hc, hargs⟩ := h
    exact ⟨hc.symm, idArgs, rfl, hargs ▸ List.prefix_rfl⟩

theorem lockSiteH_inv (bag : ArgBag) (c : String) (cargs : List Value)
    (h : lockSiteH bag = .ok (.invoke c cargs)) :
    c = "sites:lock" ∧
      ∃ idArgs, siteIdentifier bag = some idArgs ∧ idArgs <+: cargs := by
  cases hsi : siteIdentifier bag with
  | none => simp [lockSiteH, hsi] at h
  | some idArgs =>
    simp only [lockSiteH, hsi, Except.ok.injEq,
      HandlerResult.invoke.injEq] at h
    obtain ⟨hc, hargs⟩ := h
    refine ⟨hc.symm, idArgs, rfl, ?_⟩
    rw [← hargs]; simp [List.append_assoc]

theorem unlockSiteH_inv (bag : ArgBag) (c : String) (cargs : List Value)
    (h : unlockSiteH bag = .ok (.invoke c cargs)) :
    c = "sites:unlock" ∧
      ∃ idArgs, siteIdentifier bag = some idArgs ∧ idArgs <+: cargs := by
  cases hsi : siteIdentifier bag with
  | none => simp [unlockSiteH, hsi] at h
  | some idArgs =>
    simp only [unlockSiteH, hsi, Except.ok.injEq,
      HandlerResult.invoke.injEq] at h
    obtain ⟨hc, hargs⟩ := h
    exact ⟨hc.symm, idArgs, rfl, hargs ▸ List.prefix_rfl⟩

theorem hardenSiteH_inv (bag : ArgBag) (c : String) (cargs : List Value)
    (h : hardenSiteH bag = .ok (.invoke c cargs)) :
    c = "sites:harden" ∧
      ∃ idArgs, siteIdentifier bag = some idArgs ∧ idArgs <+: cargs := by
  cases hsi : siteIdentifier bag with
  | none => simp [hardenSiteH, hsi] at h
  | some idArgs =>
    simp only [hardenSiteH, hsi] at h
    split at h
    · simp only [Except.ok.injEq, HandlerResult.invoke.injEq] at h
      obtain ⟨hc, hargs⟩ := h
      exact ⟨hc.symm, idArgs, rfl, hargs ▸ List.prefix_rfl⟩
    · split at h
      · simp at h
      · simp only [Except.ok.injEq, HandlerResult.invoke.injEq] at h
        obtain ⟨hc, hargs⟩ := h
        refine ⟨hc.symm, idArgs, rfl, ?_⟩
        rw [← hargs]; simp [List.append_assoc]

theorem unhardenSiteH_inv (bag : ArgBag) (c : String) (cargs : List Value)
    (h : unhardenSiteH bag = .ok (.invoke c cargs)) :
    c = "sites:unharden" ∧
      ∃ idArgs, siteIdentifier bag = some idArgs ∧ idArgs <+: cargs := by
  cases hsi : siteIdentifier bag with
  | none => simp [unhardenSiteH, hsi] at h
  | some idArgs =>
    simp only [unhardenSiteH, hsi, Except.ok.injEq,
      HandlerResult.invoke.injEq] at h
    obtain ⟨hc, hargs⟩ := h
    exact ⟨hc.symm, idArgs, rfl, hargs ▸ List.prefix_rfl⟩

theorem fixPermissionsH_inv (bag : ArgBag) (c : String) (cargs : List Value)
    (h : fixPermissionsH bag = .ok (.invoke c cargs)) :
    c = "sites:fix-permissions" ∧
      ∃ idArgs, siteIdentifier bag = some idArgs ∧ idArgs <+: cargs := by
  cases hsi : siteIdentifier bag with
  | none => simp [fixPermissionsH, hsi] at h
  | some idArgs =>
    simp only [fixPermissionsH, hsi] at h
    split at h
    · simp only [Except.ok.injEq, HandlerResult.invoke.injEq] at h
      obtain ⟨hc, hargs⟩ := h
      exact ⟨hc.symm, idArgs, rfl, hargs ▸ List.prefix_rfl⟩
    · split at h
      · simp at h
      · simp only [Except.ok.injEq, HandlerResult.invoke.injEq] at h
        obtain ⟨hc, hargs⟩ := h
        refine ⟨hc.symm, idArgs, rfl, ?_⟩
        rw [← hargs]; simp [List.append_assoc]

theorem scanSiteH_inv (bag : ArgBag) (c : String) (cargs : List Value)
    (h : scanSiteH bag = .ok (.invoke c cargs)) :
    c = "sites:scan" ∧
      ∃ idArgs, siteIdentifier bag = some idArgs ∧ idArgs <+: cargs := by
  cases hsi : siteIdentifier bag with
  | none => simp [scanSiteH, hsi] at h
  | some idArgs =>
    simp only [scanSiteH, hsi] at h
    split at h
    · simp only [Except.ok.injEq, HandlerResult.invoke.injEq] at h
      obtain ⟨hc, hargs⟩ := h
      exact ⟨hc.symm, idArgs, rfl, hargs ▸ List.prefix_rfl⟩
    · split at h
      · simp at h
      · simp only [Except.ok.injEq, HandlerResult.invoke.injEq] at h
        obtain ⟨hc, hargs⟩ := h
        refine ⟨hc.symm, idArgs, rfl, ?_⟩
        rw [← hargs]; simp [List.append_assoc]

theorem backupSiteH_inv (bag : ArgBag) (c : String) (cargs : List Value)
    (h : backupSiteH bag = .ok (.invoke c cargs)) :
    c = "sites:backup" ∧
      ∃ idArgs, siteIdentifier bag = some idArgs ∧ idArgs <+: cargs := by
  cases hsi : siteIdentifier bag with
  | none => simp [backupSiteH, hsi] at h
  | some idArgs =>
    simp only [backupSiteH, hsi, Except.ok.injEq,
      HandlerResult.invoke.injEq] at h
    obtain ⟨hc, hargs⟩ := h
    refine ⟨hc.symm, idArgs, rfl, ?_⟩
    rw [← hargs]; simp [List.append_assoc]

theorem restoreSiteH_inv (bag : ArgBag) (c : String) (cargs : List Value)
    (h : restoreSiteH bag = .ok (.invoke c cargs)) :
    c = "sites:restore" ∧
      ∃ idArgs, siteIdentifier bag = some idArgs ∧ idArgs <+: cargs := by
  cases hsi : siteIdentifier bag with
  | none => simp [restoreSiteH, hsi] at h
  | some idArgs =>
    simp only [restoreSiteH, hsi] at h
    split at h
    · simp at h
    · simp only [Except.ok.injEq, HandlerResult.invoke.injEq] at h
      obtain ⟨hc, hargs⟩ := h
      refine ⟨hc.symm, idArgs, rfl, ?_⟩
      rw [← hargs]; simp [List.append_assoc]

theorem updatePluginsH_inv (bag : ArgBag) (c : String) (cargs : List Value)
    (h : updatePluginsH bag = .ok (.invoke c cargs)) :
    c = "sites:update-plugins" ∧
      ∃ idArgs, siteIdentifier bag = some idArgs ∧ idArgs <+: cargs := by
  cases hsi : siteIdentifier bag with
  | none => simp [updatePluginsH, hsi] at h
  | some idArgs =>
    simp only [updatePluginsH, hsi] at h
    split at h
    · simp at h
    · simp only [Except.ok.injEq, HandlerResult.invoke.injEq] at h
      obtain ⟨hc, hargs⟩ := h
      refine ⟨hc.symm, idArgs, rfl, ?_⟩
      rw [← hargs]; simp [List.append_assoc]

theorem updateThemesH_inv (bag : ArgBag) (c : String) (cargs : List Value)
    (h : updateThemesH bag = .ok (.invoke c cargs)) :
    c = "sites:update-themes" ∧
      ∃ idArgs, siteIdentifier bag = some idArgs ∧ idArgs <+: cargs := by
  cases hsi : siteIdentifier bag with
  | none => simp [updateThemesH, hsi] at h
  | some idArgs =>
    simp only [updateThemesH, hsi] at h
    split at h
    · simp at h
    · simp only [Except.ok.injEq, HandlerResult.invoke.injEq] at h
      obtain ⟨hc, hargs⟩ := h
      refine ⟨hc.symm, idArgs, rfl, ?_⟩
      rw [← hargs]; simp [List.append_assoc]

theorem updateCoreH_inv (bag : ArgBag) (c : String) (cargs : List Value)
    (h : updateCoreH bag = .ok (.invoke c cargs)) :
    c = "sites:update-core" ∧
      ∃ idArgs, siteIdentifier bag = some idArgs ∧ idArgs <+: cargs := by
  cases hsi : siteIdentifier bag with
  | none => simp [updateCoreH, hsi] at h
  | some idArgs =>
    simp only [updateCoreH, hsi, Except.ok.injEq,
      HandlerResult.invoke.injEq] at h
    obtain ⟨hc, hargs⟩ := h
    refine ⟨hc.symm, idArgs, rfl, ?_⟩
    rw [← hargs]; simp [List.append_assoc]

theorem listSitesH_cmd (bag : ArgBag) (c : String) (cargs : List Value)
    (h : listSitesH bag = .ok (.invoke c cargs)) : c = "sites:list" := by
  simp only [listSitesH, Except.ok.injEq, HandlerResult.invoke.injEq] at h
  exact h.1.symm

theorem validateSitesH_cmd (bag : ArgBag) (c : String) (cargs : List Value)
    (h : validateSitesH bag = .ok (.invoke c cargs)) : c = "validate:sites" := by
  simp only [validateSitesH] at h
  split at h
  · simp only [Except.ok.injEq, HandlerResult.invoke.injEq] at h
    exact h.1.symm
  · split at h
    · simp at h
    · simp only [Except.ok.injEq, HandlerResult.invoke.injEq] at h
      exact h.1.symm

theorem getJobsH_cmd (bag : ArgBag) (c : String) (cargs : List Value)
    (h : getJobsH bag = .ok (.invoke c cargs)) : c = "jobs:list" := by
  simp only [getJobsH, Except.ok.injEq, HandlerResult.invoke.injEq] at h
  exact h.1.symm

theorem getDashboardStatsH_cmd (bag : ArgBag) (c : String) (cargs : List Value)
    (h : getDashboardStatsH bag = .ok (.invoke c cargs)) :
    c = "dashboard:stats" := by
  simp only [getDashboardStatsH, Except.ok.injEq,
    HandlerResult.invoke.injEq] at h
  exact h.1.symm

end WpOps

namespace WpOps

theorem getSiteInfoH_removeKey (bag : ArgBag) (v : Value)
    (h : List.lookup "site_id" bag = some v) :
    getSiteInfoH (removeKey bag "site_path") = getSiteInfoH bag := by
  unfold getSiteInfoH
  rw [siteIdentifier_removeKey bag v h]

theorem lockSiteH_removeKey (bag : ArgBag) (v : Value)
    (h : List.lookup "site_id" bag = some v) :
    lockSiteH (removeKey bag "site_path") = lockSiteH bag := by
  unfold lockSiteH
  rw [siteIdentifier_removeKey bag v h,
    lookup_removeKey bag "message" "site_path" (by decide)]

theorem unlockSiteH_removeKey (bag : ArgBag) (v : Value)
    (h : List.lookup "site_id" bag = some v) :
    unlockSiteH (removeKey bag "site_path") = unlockSiteH bag := by
  unfold unlockSiteH
  rw [siteIdentifier_removeKey bag v h]

theorem hardenSiteH_removeKey (bag : ArgBag) (v : Value)
    (h : List.lookup "site_id" bag = some v) :
    hardenSiteH (removeKey bag "site_path") = hardenSiteH bag := by
  unfold hardenSiteH
  rw [siteIdentifier_removeKey bag v h,
    lookup_removeKey bag "options" "site_path" (by decide)]

theorem unhardenSiteH_removeKey (bag : ArgBag) (v : Value)
    (h : List.lookup "site_id" bag = some v) :
    unhardenSiteH (removeKey bag "site_path") = unhardenSiteH bag := by
  unfold unhardenSiteH
  rw [siteIdentifier_removeKey bag v h]

theorem fixPermissionsH_removeKey (bag : ArgBag) (v : Value)
    (h : List.lookup "site_id" bag = some v) :
    fixPermissionsH (removeKey bag "site_path") = fixPermissionsH bag := by
  unfold fixPermissionsH
  rw [siteIdentifier_removeKey bag v h,
    lookup_removeKey bag "options" "site_path" (by decide)]

theorem scanSiteH_removeKey (bag : ArgBag) (v : Value)
    (h : List.lookup "site_id" bag = some v) :
    scanSiteH (removeKey bag "site_path") = scanSiteH bag := by
  unfold scanSiteH
  rw [siteIdentifier_removeKey bag v h,
    lookup_removeKey bag "scan_types" "site_path" (by decide)]

theorem backupSiteH_removeKey (bag : ArgBag) (v : Value)
    (h : List.lookup "site_id" bag = some v) :
    backupSiteH (removeKey bag "site_path") = backupSiteH bag := by
  unfold backupSiteH
  rw [siteIdentifier_removeKey bag v h,
    lookup_removeKey bag "backup_type" "site_path" (by decide),
    lookup_removeKey bag "compression" "site_path" (by decide)]

theorem restoreSiteH_removeKey (bag : ArgBag) (v : Value)
    (h : List.lookup "site_id" bag = some v) :
    restoreSiteH (removeKey bag "site_path") = restoreSiteH bag := by
  unfold restoreSiteH
  rw [siteIdentifier_removeKey bag v h,
    lookup_removeKey bag "backup_id" "site_path" (by decide),
    lookup_removeKey bag "restore_type" "site_path" (by decide)]

theorem updatePluginsH_removeKey (bag : ArgBag) (v : Value)
    (h : List.lookup "site_id" bag = some v) :
    updatePluginsH (removeKey bag "site_path") = updatePluginsH bag := by
  unfold updatePluginsH
  rw [siteIdentifier_removeKey bag v h,
    lookup_removeKey bag "plugins" "site_path" (by decide),
    lookup_removeKey bag "dry_run" "site_path" (by decide)]

theorem updateThemesH_removeKey (bag : ArgBag) (v : Value)
    (h : List.lookup "site_id" bag = some v) :
    updateThemesH (removeKey bag "site_path") = updateThemesH bag := by
  unfold updateThemesH
  rw [siteIdentifier_removeKey bag v h,
    lookup_removeKey bag "themes" "site_path" (by decide),
    lookup_removeKey bag "dry_run" "site_path" (by decide)]

theorem updateCoreH_removeKey (bag : ArgBag) (v : Value)
    (h : List.lookup "site_id" bag = some v) :
    updateCoreH (removeKey bag "site_path") = updateCoreH bag := by
  unfold updateCoreH
  rw [siteIdentifier_removeKey bag v h,
    lookup_removeKey bag "version" "site_path" (by decide),
    lookup_removeKey bag "dry_run" "site_path" (by decide)]

end WpOps

namespace WpOps

/-- A concrete configuration (the documented defaults `php` /
`/app/agent`), for witnesses. -/
def cfgEx : Config := { php_cli := "php", agent_path := "/app/agent" }

/-- A decoder on which no stdout parses (concrete `json.loads` stand-in). -/
def decodeNone : String → Option Value := fun _ => none

/-- A world in which every process completes with status 0 and empty
output. -/
def worldOk : SpawnRequest → ProcResult := fun _ => .completed 0 "" ""

/-- A world in which every process exits with status 1 and stderr
`disk full`. -/
def worldDiskFull : SpawnRequest → ProcResult :=
  fun _ => .completed 1 "" "disk full"

/-- C1: dispatch (`call_tool`) always returns a response envelope and never
propagates a fault: an error raised during routing or argument handling
(`routeTool` returning `Except.error`) is converted into a payload with
`success=false` carrying the exception message, and a failure to even start
the child process is converted by the runner into a `success=false` payload
with a descriptive message — in both cases `callTool` returns normally. -/
theorem C1_dispatch_catches_all_errors (cfg : Config)
    (decode : String → Option Value) (world : SpawnRequest → ProcResult)
    (name : String) (args : ArgBag) :
    (∀ e, routeTool name args = .error e →
      callTool cfg decode world name args =
        { payload := Value.obj [("success", Value.bool false),
                                ("error", Value.str e)]
          isError := true })
    ∧ (∀ c cargs cause, routeTool name args = .ok (.invoke c cargs) →
        world (agentSpawnRequest cfg c cargs) = .startFailure cause →
        callTool cfg decode world name args =
          { payload := Value.obj [("success", Value.bool false),
              ("error", Value.str ("Failed to execute command: " ++ cause))]
            isError := false }) := by
  constructor
  · intro e he
    simp [callTool, he]
  · intro c cargs cause hr hw
    simp [callTool, hr, executeAgentCommand, hw]

/-- Witness for C1 at the unknown tool name `frobnicate`. -/
theorem C1_witness :
    callTool cfgEx decodeNone worldOk "frobnicate" [] =
      { payload := Value.obj [("success", Value.bool false),
                              ("error", Value.str "Unknown tool: frobnicate")]
        isError := true } :=
  (C1_dispatch_catches_all_errors cfgEx decodeNone worldOk "frobnicate" []).1
    "Unknown tool: frobnicate" rfl

/-- C2 counterexample: `get_site_info` with an empty bag returns the
`success=false` identifier-required payload through the normal return path,
and the transport error flag is NOT set — the two signals disagree. -/
theorem C2_counterexample :
    lookupField (callTool cfgEx decodeNone worldOk "get_site_info" []).payload
        "success" = some (Value.bool false) ∧
    (callTool cfgEx decodeNone worldOk "get_site_info" []).isError = false :=
  ⟨rfl, rfl⟩

/-- C2 (amended): the transport-level `isError` flag is set exactly on the
exception path of `call_tool` — `true` when routing or a handler raises,
`false` whenever a handler returns a payload normally, even a payload with
`success=false`. -/
theorem C2_isError_iff_exception (cfg : Config)
    (decode : String → Option Value) (world : SpawnRequest → ProcResult)
    (name : String) (args : ArgBag) :
    (∀ e, routeTool name args = .error e →
      (callTool cfg decode world name args).isError = true)
    ∧ (∀ r, routeTool name args = .ok r →
      (callTool cfg decode world name args).isError = false) := by
  constructor
  · intro e he
    simp [callTool, he]
  · intro r hr
    cases r <;> simp [callTool, hr]

/-- Witness for C2 (amended): flag set on an unknown tool, flag clear on a
normally-returned handler payload. -/
theorem C2_witness :
    (callTool cfgEx decodeNone worldOk "nonexistent_tool" []).isError = true ∧
    (callTool cfgEx decodeNone worldOk "get_site_info"
        [("site_path", Value.str "/var/www")]).isError = false :=
  ⟨(C2_isError_iff_exception cfgEx decodeNone worldOk
      "nonexistent_tool" []).1 "Unknown tool: nonexistent_tool" rfl,
   (C2_isError_iff_exception cfgEx decodeNone worldOk "get_site_info"
      [("site_path", Value.str "/var/www")]).2
      (.invoke "sites:info" [Value.str "--path", Value.str "/var/www"]) rfl⟩

/-- C3 counterexample: an argument bag violating both the declared `status`
enum and the declared `limit` maximum is not rejected — it is routed
straight to an agent invocation, and the process runner is reached with it
(here the spawn attempt fails, proving a spawn was attempted). -/
theorem C3_counterexample :
    routeTool "list_sites"
        [("status", Value.str "bogus"), ("limit", Value.int 5000)] =
      .ok (.invoke "sites:list"
        [Value.str "--status", Value.str "bogus", Value.str "--limit",
         Value.str "5000"]) ∧
    callTool cfgEx decodeNone (fun _ => .startFailure "php missing")
        "list_sites" [("status", Value.str "bogus"), ("limit", Value.int 5000)] =
      { payload := Value.obj [("success", Value.bool false),
          ("error", Value.str "Failed to execute command: php missing")]
        isError := false } :=
  ⟨rfl, rfl⟩

/-- C3 (amended): the dispatcher performs no structural type/enum/range
validation of the argument bag — other than each handler's identifier-group
check, values are forwarded unchecked: any non-`all` status string and any
integer limit, in range or not, are passed through onto the agent command
line. -/
theorem C3_no_schema_validation (s : String) (hs : s ≠ "all") (n : Int) :
    routeTool "list_sites" [("status", Value.str s)] =
      .ok (.invoke "sites:list" [Value.str "--status", Value.str s]) ∧
    routeTool "list_sites" [("limit", Value.int n)] =
      .ok (.invoke "sites:list"
        [Value.str "--limit", Value.str (toString n)]) := by
  constructor
  · simp [routeTool, listSitesH, List.lookup, pyEqStr, hs]
  · simp [routeTool, listSitesH, List.lookup, pyStr]

/-- Witness for C3 (amended) at `status=bogus`, `limit=5000`. -/
theorem C3_witness :
    routeTool "list_sites" [("status", Value.str "bogus")] =
      .ok (.invoke "sites:list" [Value.str "--status", Value.str "bogus"]) ∧
    routeTool "list_sites" [("limit", Value.int 5000)] =
      .ok (.invoke "sites:list"
        [Value.str "--limit", Value.str "5000"]) :=
  C3_no_schema_validation "bogus" (by decide) 5000

end WpOps

namespace WpOps

/-- C4: for every operation whose schema mandates the identifier group,
dispatching a bag containing neither `site_id` nor `site_path` yields the
`success=false` identifier-required payload, for every possible world — in
particular the result does not depend on the process runner, so no child
process is spawned. -/
theorem C4_identifier_required (name : String) (hmem : name ∈ identifierOps)
    (cfg : Config) (decode : String → Option Value)
    (world : SpawnRequest → ProcResult) (bag : ArgBag)
    (h1 : List.lookup "site_id" bag = none)
    (h2 : List.lookup "site_path" bag = none) :
    callTool cfg decode world name bag =
      { payload := identifierRequired, isError := false } := by
  have hsi := siteIdentifier_none bag h1 h2
  simp only [identifierOps, List.mem_cons, List.not_mem_nil, or_false] at hmem
  rcases hmem with rfl | rfl | rfl | rfl | rfl | rfl | rfl | rfl | rfl |
    rfl | rfl | rfl <;>
    simp [callTool, routeTool, getSiteInfoH, lockSiteH, unlockSiteH,
      hardenSiteH, unhardenSiteH, fixPermissionsH, scanSiteH, backupSiteH,
      restoreSiteH, updatePluginsH, updateThemesH, updateCoreH, hsi]

/-- Witness for C4 at `get_site_info` with the empty bag. -/
theorem C4_witness :
    callTool cfgEx decodeNone worldOk "get_site_info" [] =
      { payload := identifierRequired, isError := false } :=
  C4_identifier_required "get_site_info" (by decide) cfgEx decodeNone worldOk
    [] rfl rfl

/-- C5: the process runner is total and branch-correct: a start failure
yields `(success: false, error: Failed to execute command cause)`; a zero
exit with parseable stdout returns the parsed payload directly; a zero exit
with unparseable stdout yields `(success: true, output: stdout,
error: stderr-or-null)`; a nonzero exit yields `(success: false,
error: stderr-or-Command-failed, exit_code: status)`. -/
theorem C5_runner_branches (cfg : Config) (decode : String → Option Value)
    (world : SpawnRequest → ProcResult) (command : String)
    (args : List Value) :
    (∀ cause,
      world (agentSpawnRequest cfg command args) = .startFailure cause →
      executeAgentCommand cfg decode world command args =
        Value.obj [("success", Value.bool false),
          ("error", Value.str ("Failed to execute command: " ++ cause))])
    ∧ (∀ out err payload,
        world (agentSpawnRequest cfg command args) = .completed 0 out err →
        decode out = some payload →
        executeAgentCommand cfg decode world command args = payload)
    ∧ (∀ out err,
        world (agentSpawnRequest cfg command args) = .completed 0 out err →
        decode out = none →
        executeAgentCommand cfg decode world command args =
          Value.obj [("success", Value.bool true),
            ("output", Value.str out),
            ("error", if err = "" then Value.null else Value.str err)])
    ∧ (∀ rc out err,
        world (agentSpawnRequest cfg command args) = .completed rc out err →
        rc ≠ 0 →
        executeAgentCommand cfg decode world command args =
          Value.obj [("success", Value.bool false),
            ("error", Value.str (if err = "" then "Command failed" else err)),
            ("exit_code", Value.int rc)]) := by
  refine ⟨?_, ?_, ?_, ?_⟩ <;> intros <;> simp_all [executeAgentCommand]

/-- Witness for C5: exit status 1 with stderr `disk full` produces the
documented failure envelope. -/
theorem C5_witness :
    executeAgentCommand cfgEx decodeNone worldDiskFull "sites:backup" [] =
      Value.obj [("success", Value.bool false),
        ("error", Value.str "disk full"), ("exit_code", Value.int 1)] :=
  (C5_runner_branches cfgEx decodeNone worldDiskFull "sites:backup" []).2.2.2
    1 "" "disk full" rfl (by decide)

/-- C6: whenever dispatch reaches an agent invocation, the invoked command
name is the operation's fixed external name, and the spawned command line is
exactly interpreter, `<agent_root>/cli.php`, command name, then the built
flag tokens, run with working directory equal to the agent root. -/
theorem C6_command_line_shape (cfg : Config) (name : String) (args : ArgBag)
    (c : String) (cargs : List Value)
    (h : routeTool name args = .ok (.invoke c cargs)) :
    agentCommand name = some c ∧
    (agentSpawnRequest cfg c cargs).cmd =
      [Value.str cfg.php_cli, Value.str (cfg.agent_path ++ "/cli.php"),
       Value.str c] ++ cargs ∧
    (agentSpawnRequest cfg c cargs).cwd = cfg.agent_path := by
  refine ⟨?_, rfl, rfl⟩
  unfold routeTool at h
  by_cases h1 : name = "list_sites"
  · rw [if_pos h1] at h
    subst h1
    have hc := listSitesH_cmd _ _ _ h
    subst hc; decide
  rw [if_neg h1] at h
  by_cases h2 : name = "get_site_info"
  · rw [if_pos h2] at h
    subst h2
    have hc := (getSiteInfoH_inv _ _ _ h).1
    subst hc; decide
  rw [if_neg h2] at h
  by_cases h3 : name = "lock_site"
  · rw [if_pos h3] at h
    subst h3
    have hc := (lockSiteH_inv _ _ _ h).1
    subst hc; decide
  rw [if_neg h3] at h
  by_cases h4 : name = "unlock_site"
  · rw [if_pos h4] at h
    subst h4
    have hc := (unlockSiteH_inv _ _ _ h).1
    subst hc; decide
  rw [if_neg h4] at h
  by_cases h5 : name = "harden_site"
  · rw [if_pos h5] at h
    subst h5
    have hc := (hardenSiteH_inv _ _ _ h).1
    subst hc; decide
  rw [if_neg h5] at h
  by_cases h6 : name = "unharden_site"
  · rw [if_pos h6] at h
    subst h6
    have hc := (unhardenSiteH_inv _ _ _ h).1
    subst hc; decide
  rw [if_neg h6] at h
  by_cases h7 : name = "fix_permissions"
  · rw [if_pos h7] at h
    subst h7
    have hc := (fixPermissionsH_inv _ _ _ h).1
    subst hc; decide
  rw [if_neg h7] at h
  by_cases h8 : name = "scan_site"
  · rw [if_pos h8] at h
    subst h8
    have hc := (scanSiteH_inv _ _ _ h).1
    subst hc; decide
  rw [if_neg h8] at h
  by_cases h9 : name = "backup_site"
  · rw [if_pos h9] at h
    subst h9
    have hc := (backupSiteH_inv _ _ _ h).1
    subst hc; decide
  rw [if_neg h9] at h
  by_cases h10 : name = "restore_site"
  · rw [if_pos h10] at h
    subst h10
    have hc := (restoreSiteH_inv _ _ _ h).1
    subst hc; decide
  rw [if_neg h10] at h
  by_cases h11 : name = "update_plugins"
  · rw [if_pos h11] at h
    subst h11
    have hc := (updatePluginsH_inv _ _ _ h).1
    subst hc; decide
  rw [if_neg h11] at h
  by_cases h12 : name = "update_themes"
  · rw [if_pos h12] at h
    subst h12
    have hc := (updateThemesH_inv _ _ _ h).1
    subst hc; decide
  rw [if_neg h12] at h
  by_cases h13 : name = "update_core"
  · rw [if_pos h13] at h
    subst h13
    have hc := (updateCoreH_inv _ _ _ h).1
    subst hc; decide
  rw [if_neg h13] at h
  by_cases h14 : name = "validate_sites"
  · rw [if_pos h14] at h
    subst h14
    have hc := validateSitesH_cmd _ _ _ h
    subst hc; decide
  rw [if_neg h14] at h
  by_cases h15 : name = "get_jobs"
  · rw [if_pos h15] at h
    subst h15
    have hc := getJobsH_cmd _ _ _ h
    subst hc; decide
  rw [if_neg h15] at h
  by_cases h16 : name = "get_dashboard_stats"
  · rw [if_pos h16] at h
    subst h16
    have hc := getDashboardStatsH_cmd _ _ _ h
    subst hc; decide
  rw [if_neg h16] at h
  simp at h

/-- Witness for C6 at `get_dashboard_stats`. -/
theorem C6_witness :
    agentCommand "get_dashboard_stats" = some "dashboard:stats" ∧
    (agentSpawnRequest cfgEx "dashboard:stats" []).cmd =
      [Value.str "php", Value.str "/app/agent/cli.php",
       Value.str "dashboard:stats"] ∧
    (agentSpawnRequest cfgEx "dashboard:stats" []).cwd = "/app/agent" :=
  ⟨(C6_command_line_shape cfgEx "get_dashboard_stats" [] "dashboard:stats"
      [] rfl).1,
   (C6_command_line_shape cfgEx "get_dashboard_stats" [] "dashboard:stats"
      [] rfl).2.1,
   (C6_command_line_shape cfgEx "get_dashboard_stats" [] "dashboard:stats"
      [] rfl).2.2⟩

end WpOps

namespace WpOps

/-- Helper shared by the identifier-prologue handlers: an invoke outcome
pins the first two tokens to exactly one identifier flag pair, and when
`site_id` is present the handler ignores `site_path`. -/
theorem identifier_case_helper
    (handler : ArgBag → Except String HandlerResult) (bag : ArgBag)
    (c : String) (cargs : List Value) (cmd : String)
    (hinv : ∀ bag c cargs, handler bag = .ok (.invoke c cargs) →
      c = cmd ∧ ∃ idArgs, siteIdentifier bag = some idArgs ∧ idArgs <+: cargs)
    (hrem : ∀ bag v, List.lookup "site_id" bag = some v →
      handler (removeKey bag "site_path") = handler bag)
    (h : handler bag = .ok (.invoke c cargs)) :
    (∃ v, List.lookup "site_id" bag = some v ∧
      cargs.take 2 = [Value.str "--id", Value.str (pyStr v)] ∧
      handler (removeKey bag "site_path") = handler bag)
    ∨ (List.lookup "site_id" bag = none ∧
      ∃ v, List.lookup "site_path" bag = some v ∧
        cargs.take 2 = [Value.str "--path", v]) := by
  obtain ⟨-, idArgs, hsi, hpre⟩ := hinv bag c cargs h
  obtain ⟨t, ht⟩ := hpre
  rcases siteIdentifier_some bag idArgs hsi with ⟨v, hv, hid⟩ |
    ⟨hnone, v, hv, hid⟩
  · refine Or.inl ⟨v, hv, ?_, hrem bag v hv⟩
    rw [← ht, hid]
    rfl
  · refine Or.inr ⟨hnone, v, hv, ?_⟩
    rw [← ht, hid]
    rfl

set_option maxHeartbeats 1000000 in
/-- C7: every invoke outcome of an identifier-group operation carries
exactly one identifier flag pair at the head of its token list — `--id`
with the stringified id when `site_id` is present (in which case the
`site_path` binding is silently ignored: removing it does not change the
dispatch result at all), otherwise `--path` with the path value; never
both. -/
theorem C7_single_identifier_flag (name : String)
    (hmem : name ∈ identifierOps) (bag : ArgBag) (c : String)
    (cargs : List Value) (h : routeTool name bag = .ok (.invoke c cargs)) :
    (∃ v, List.lookup "site_id" bag = some v ∧
      cargs.take 2 = [Value.str "--id", Value.str (pyStr v)] ∧
      routeTool name (removeKey bag "site_path") = routeTool name bag)
    ∨ (List.lookup "site_id" bag = none ∧
      ∃ v, List.lookup "site_path" bag = some v ∧
        cargs.take 2 = [Value.str "--path", v]) := by
  simp only [identifierOps, List.mem_cons, List.not_mem_nil, or_false]
    at hmem
  rcases hmem with rfl | rfl | rfl | rfl | rfl | rfl | rfl | rfl | rfl |
    rfl | rfl | rfl
  · have hr : ∀ b : ArgBag, routeTool "get_site_info" b = getSiteInfoH b :=
      fun _ => rfl
    rw [hr] at h
    simp only [hr]
    exact identifier_case_helper _ _ _ _ "sites:info" getSiteInfoH_inv
      getSiteInfoH_removeKey h
  · have hr : ∀ b : ArgBag, routeTool "lock_site" b = lockSiteH b :=
      fun _ => rfl
    rw [hr] at h
    simp only [hr]
    exact identifier_case_helper _ _ _ _ "sites:lock" lockSiteH_inv
      lockSiteH_removeKey h
  · have hr : ∀ b : ArgBag, routeTool "unlock_site" b = unlockSiteH b :=
      fun _ => rfl
    rw [hr] at h
    simp only [hr]
    exact identifier_case_helper _ _ _ _ "sites:unlock" unlockSiteH_inv
      unlockSiteH_removeKey h
  · have hr : ∀ b : ArgBag, routeTool "harden_site" b = hardenSiteH b :=
      fun _ => rfl
    rw [hr] at h
    simp only [hr]
    exact identifier_case_helper _ _ _ _ "sites:harden" hardenSiteH_inv
      hardenSiteH_removeKey h
  · have hr : ∀ b : ArgBag, routeTool "unharden_site" b = unhardenSiteH b :=
      fun _ => rfl
    rw [hr] at h
    simp only [hr]
    exact identifier_case_helper _ _ _ _ "sites:unharden" unhardenSiteH_inv
      unhardenSiteH_removeKey h
  · have hr : ∀ b : ArgBag, routeTool "fix_permissions" b = fixPermissionsH b :=
      fun _ => rfl
    rw [hr] at h
    simp only [hr]
    exact identifier_case_helper _ _ _ _ "sites:fix-permissions" fixPermissionsH_inv
      fixPermissionsH_removeKey h
  · have hr : ∀ b : ArgBag, routeTool "scan_site" b = scanSiteH b :=
      fun _ => rfl
    rw [hr] at h
    simp only [hr]
    exact identifier_case_helper _ _ _ _ "sites:scan" scanSiteH_inv
      scanSiteH_removeKey h
  · have hr : ∀ b : ArgBag, routeTool "backup_site" b = backupSiteH b :=
      fun _ => rfl
    rw [hr] at h
    simp only [hr]
    exact identifier_case_helper _ _ _ _ "sites:backup" backupSiteH_inv
      backupSiteH_removeKey h
  · have hr : ∀ b : ArgBag, routeTool "restore_site" b = restoreSiteH b :=
      fun _ => rfl
    rw [hr] at h
    simp only [hr]
    exact identifier_case_helper _ _ _ _ "sites:restore" restoreSiteH_inv
      restoreSiteH_removeKey h
  · have hr : ∀ b : ArgBag, routeTool "update_plugins" b = updatePluginsH b :=
      fun _ => rfl
    rw [hr] at h
    simp only [hr]
    exact identifier_case_helper _ _ _ _ "sites:update-plugins" updatePluginsH_inv
      updatePluginsH_removeKey h
  · have hr : ∀ b : ArgBag, routeTool "update_themes" b = updateThemesH b :=
      fun _ => rfl
    rw [hr] at h
    simp only [hr]
    exact identifier_case_helper _ _ _ _ "sites:update-themes" updateThemesH_inv
      updateThemesH_removeKey h
  · have hr : ∀ b : ArgBag, routeTool "update_core" b = updateCoreH b :=
      fun _ => rfl
    rw [hr] at h
    simp only [hr]
    exact identifier_case_helper _ _ _ _ "sites:update-core" updateCoreH_inv
      updateCoreH_removeKey h

/-- Witness for C7: `backup_site` with both identifier forms present picks
`--id` and silently ignores `site_path`. -/
theorem C7_witness :
    routeTool "backup_site"
        (removeKey [("site_id", Value.int 5),
          ("site_path", Value.str "/srv/site")] "site_path") =
      routeTool "backup_site"
        [("site_id", Value.int 5), ("site_path", Value.str "/srv/site")] := by
  rcases C7_single_identifier_flag "backup_site" (by decide)
      [("site_id", Value.int 5), ("site_path", Value.str "/srv/site")]
      "sites:backup" [Value.str "--id", Value.str "5"] rfl with
    ⟨v, hv, -, hrm⟩ | ⟨hnone, -⟩
  · exact hrm
  · simp [List.lookup] at hnone

/-- C8: boolean option fields translate to flags in the per-operation
declared style with underscores turned into hyphens: a `harden_site`
option set to true emits the bare `--<kebab>` token and set to false emits
`--no-<kebab>`, while `backup_site` compression set to false emits nothing
— the documented scenario builds `... sites:backup --id 5 --type files`
with no `--compress` token. -/
theorem C8_boolean_flag_translation :
    (∀ (idv : Value) (key : String) (b : Bool),
      routeTool "harden_site"
          [("site_id", idv), ("options", Value.obj [(key, Value.bool b)])] =
        .ok (.invoke "sites:harden"
          [Value.str "--id", Value.str (pyStr idv),
           Value.str ((if b then "--" else "--no-") ++
             key.replace "_" "-")]))
    ∧ routeTool "backup_site"
        [("site_id", Value.int 5), ("backup_type", Value.str "files"),
         ("compression", Value.bool false)] =
      .ok (.invoke "sites:backup"
        [Value.str "--id", Value.str "5", Value.str "--type",
         Value.str "files"])
    ∧ ∀ cfg : Config,
      (agentSpawnRequest cfg "sites:backup"
          [Value.str "--id", Value.str "5", Value.str "--type",
           Value.str "files"]).cmd =
        [Value.str cfg.php_cli, Value.str (cfg.agent_path ++ "/cli.php"),
         Value.str "sites:backup", Value.str "--id", Value.str "5",
         Value.str "--type", Value.str "files"] :=
  ⟨fun idv key b => by cases b <;> rfl, rfl, fun cfg => rfl⟩

/-- C9: list-valued fields emit one repeated flag/value pair per element,
preserving the order of the list: `plugins` via `--plugin`, `scan_types`
via `--scan`, `checks` via `--check`. -/
theorem C9_list_flags_preserve_order :
    (∀ (idv p : Value) (ps : List Value),
      routeTool "update_plugins"
          [("site_id", idv), ("plugins", Value.list (p :: ps))] =
        .ok (.invoke "sites:update-plugins"
          ([Value.str "--id", Value.str (pyStr idv)] ++
            (p :: ps).flatMap (fun x => [Value.str "--plugin", x]))))
    ∧ (∀ (idv : Value) (ss : List Value),
      routeTool "scan_site"
          [("site_id", idv), ("scan_types", Value.list ss)] =
        .ok (.invoke "sites:scan"
          ([Value.str "--id", Value.str (pyStr idv)] ++
            ss.flatMap (fun x => [Value.str "--scan", x]))))
    ∧ (∀ (cs : List Value),
      routeTool "validate_sites" [("checks", Value.list cs)] =
        .ok (.invoke "validate:sites"
          (cs.flatMap (fun x => [Value.str "--check", x])))) := by
  refine ⟨?_, ?_, ?_⟩
  · intro idv p ps
    simp [routeTool, updatePluginsH, siteIdentifier, truthy, pyIter,
      List.lookup, Except.map]
  · intro idv ss
    simp [routeTool, scanSiteH, siteIdentifier, pyIter, List.lookup]
  · intro cs
    simp [routeTool, validateSitesH, pyIter, List.lookup]

/-- C10: `restore_site` with an identifier present but no `backup_id`
raises `KeyError` out of the handler; dispatch converts it into a
`success=false` envelope carrying the bare exception message (the quoted
key, not a dedicated backup-id-required message) with the transport error
flag set, and the result holds for every world — no child process is
spawned. -/
theorem C10_restore_missing_backup_id (cfg : Config)
    (decode : String → Option Value) (world : SpawnRequest → ProcResult)
    (bag : ArgBag) (idArgs : List Value)
    (hid : siteIdentifier bag = some idArgs)
    (hb : List.lookup "backup_id" bag = none) :
    callTool cfg decode world "restore_site" bag =
      { payload := Value.obj [("success", Value.bool false),
                              ("error", Value.str "\x27backup_id\x27")]
        isError := true } := by
  simp [callTool, routeTool, restoreSiteH, hid, hb]

/-- Witness for C10 at `site_id = 7` with `backup_id` absent. -/
theorem C10_witness :
    callTool cfgEx decodeNone worldOk "restore_site"
        [("site_id", Value.int 7)] =
      { payload := Value.obj [("success", Value.bool false),
                              ("error", Value.str "\x27backup_id\x27")]
        isError := true } :=
  C10_restore_missing_backup_id cfgEx decodeNone worldOk
    [("site_id", Value.int 7)] [Value.str "--id", Value.str "7"] rfl rfl

end WpOps
